import Mathlib

/-!
Verification of the sensor-dashboard pipeline in `src/streamlit_app.py`.

The file shallowly embeds the data model and the operations of the
dashboard: Python scalar values, the JSON response envelope, the sensor
fetch `get_sensor_data`, the metric formatter `format_metric`, the
DataFrame construction and timestamp synthesis of `main`, the prompt
construction of `analyze_data_deepseek`, the session state and its
logout transition, and the TTL memoization wrapper.  Theorems about the
spec claims follow the definitions.
-/

namespace Nido

/-- Python scalar values as they occur in this pipeline: `None`, the float
`nan`, integers, floats, strings, and pandas timestamps abstracted to a
count of minutes.  A float is carried as the exact decimal `m / 10^e`
(the doubles this pipeline feeds through are all short exact
decimals). -/
inductive PyVal where
  | pNone
  | pNaN
  | pInt (n : Int)
  | pNum (m : Int) (e : Nat)
  | pStr (s : String)
  | pTime (minutes : Int)
  deriving DecidableEq, Repr

/-- Result of Python `float(...)`: `nan`, a signed infinity, or a finite
value, again as the exact decimal `m / 10^e`. -/
inductive PyFloat where
  | fNaN
  | fInf (neg : Bool)
  | fVal (m : Int) (e : Nat)
  deriving DecidableEq, Repr

/-- Value of a string of decimal digits. -/
def digitsToNat (s : List Char) : Nat :=
  s.foldl (fun acc c => acc * 10 + (c.toNat - 48)) 0

/-- Every character is a decimal digit. -/
def allDigits (s : List Char) : Bool := s.all Char.isDigit

/-- Whitespace stripped by `float` around its argument. -/
def isPySpace (c : Char) : Bool :=
  c = ' ' ∨ c = '\t' ∨ c = '\n' ∨ c = '\r' ∨ c = '\x0b' ∨ c = '\x0c'

/-- Strip leading and trailing whitespace. -/
def trimChars (l : List Char) : List Char :=
  ((l.dropWhile isPySpace).reverse.dropWhile isPySpace).reverse

/-- Split a character list at every occurrence of `c`. -/
def splitOnChar (c : Char) : List Char → List (List Char)
  | [] => [[]]
  | x :: xs =>
      match splitOnChar c xs with
      | [] => [[]]
      | h :: t => if x = c then [] :: h :: t else (x :: h) :: t

/-- The decimal literals accepted by `float` on a string: digits with at
most one dot and at least one digit overall (exponent and underscore
forms never occur in this pipeline and are omitted). -/
def parseDecimal (neg : Bool) (l : List Char) : Option PyFloat :=
  let me? : Option (Nat × Nat) :=
    match splitOnChar '.' l with
    | [a] =>
        if a ≠ [] ∧ allDigits a then some (digitsToNat a, 0) else none
    | [a, b] =>
        if (a ≠ [] ∨ b ≠ []) ∧ allDigits a ∧ allDigits b then
          some (digitsToNat (a ++ b), b.length)
        else none
    | _ => none
  me?.map (fun me => .fVal (if neg then -(me.1 : Int) else (me.1 : Int)) me.2)

/-- Python `float(string)`: strip surrounding whitespace, take an
optional sign, then accept `nan`, `inf`/`infinity` (case-insensitive) or
a decimal literal; anything else raises `ValueError`. -/
def parsePyFloat (s₀ : String) : Option PyFloat :=
  let t := trimChars s₀.data
  let core := match t with
    | '-' :: rest => rest
    | '+' :: rest => rest
    | rest => rest
  let neg := match t with
    | '-' :: _ => true
    | _ => false
  let low := core.map Char.toLower
  if low = "nan".data then some .fNaN
  else if low = "inf".data ∨ low = "infinity".data then some (.fInf neg)
  else parseDecimal neg core

/-- Python `float(value)` on the values that reach `format_metric`:
numbers convert, `nan` stays `nan`, strings parse, and `None` or a
timestamp raise `TypeError`. -/
def pyFloat : PyVal → Option PyFloat
  | .pNone => none
  | .pNaN => some .fNaN
  | .pInt n => some (.fVal n 0)
  | .pNum m e => some (.fVal m e)
  | .pStr s => parsePyFloat s
  | .pTime _ => none

/-- Two-decimal fixed formatting, Python's `f"{x:.2f}"`.  The finite
values this pipeline formats are exact hundredths, on which every
rounding mode agrees (the round-half-up below is only reached on values
beyond the third decimal). -/
def fmtFixed2 : PyFloat → String
  | .fNaN => "nan"
  | .fInf neg => if neg then "-inf" else "inf"
  | .fVal m e =>
      let sign := if m < 0 then "-" else ""
      let p := 10 ^ e
      let a := m.natAbs * 100
      let c := a / p + (if p ≤ 2 * (a % p) then 1 else 0)
      sign ++ toString (c / 100) ++ "." ++
        (if c % 100 < 10 then "0" else "") ++ toString (c % 100)

/-- The metric-card formatter (`src/streamlit_app.py` lines 11-16):
format the value as a float with two decimal places, or return "N/A"
when `float(value)` raises `ValueError` or `TypeError`. -/
def format_metric (value : PyVal) : String :=
  match pyFloat value with
  | some f => fmtFixed2 f
  | none => "N/A"

/-- Parsed JSON values, as returned by `response.json()`. -/
inductive JVal where
  | null
  | num (q : ℚ)
  | str (s : String)
  | arr (elems : List JVal)
  | obj (kvs : List (String × JVal))

/-- Association-list lookup with decidable string keys (Python `dict`
lookup restricted to the string keys this program uses). -/
def alookup {β : Type} (k : String) : List (String × β) → Option β
  | [] => none
  | (k₂, v) :: rest => if k₂ = k then some v else alookup k rest

/-- Python `dict.get(key, default)`. -/
def dictGet (kvs : List (String × JVal)) (key : String) (dflt : JVal) : JVal :=
  (alookup key kvs).getD dflt

/-- An HTTP response as seen by the fetchers: status code, raw body text,
and the result of JSON-parsing the body (`Except.error` when
`response.json()` would raise). -/
structure HTTPResponse where
  status : Nat
  text : String
  json : Except String JVal

/-- Outcome of issuing `requests.get`: either a response arrived, or a
transport exception was raised with the given message. -/
inductive FetchInput where
  | ok (r : HTTPResponse)
  | exn (msg : String)

/-- Result of `get_sensor_data`: the value bound to `data` (an empty list
on every error path), the `st.error` message if one was emitted, and how
much `st.session_state.api_requests` was incremented. -/
structure FetchResult where
  data : JVal
  errorMsg : Option String
  apiRequestsDelta : Nat

/-- Evaluation of `response.json().get("data", [])`: a JSON-parse failure
propagates, a non-dict body raises `AttributeError`, and a dict body
yields the `data` field or an empty list. -/
def jsonGetData : Except String JVal → Except String JVal
  | .error m => .error m
  | .ok (.obj kvs) => .ok (dictGet kvs "data" (.arr []))
  | .ok .null => .error "'NoneType' object has no attribute 'get'"
  | .ok (.num _) => .error "'float' object has no attribute 'get'"
  | .ok (.str _) => .error "'str' object has no attribute 'get'"
  | .ok (.arr _) => .error "'list' object has no attribute 'get'"

/-- The fetch of `src/streamlit_app.py` lines 100-111: on a 200 response
the request counter is incremented and `data` extracted (an exception
while decoding is caught and yields an empty list); any other status
emits `st.error` with the status code and raw body and yields an empty
list; a transport exception is caught likewise. -/
def get_sensor_data (input : FetchInput) : FetchResult :=
  match input with
  | .exn msg =>
      { data := .arr []
        errorMsg := some ("An error occurred while fetching sensor data: " ++ msg)
        apiRequestsDelta := 0 }
  | .ok r =>
      if r.status = 200 then
        match jsonGetData r.json with
        | .ok d =>
            { data := d, errorMsg := none, apiRequestsDelta := 1 }
        | .error m =>
            { data := .arr []
              errorMsg := some ("An error occurred while fetching sensor data: " ++ m)
              apiRequestsDelta := 1 }
      else
        { data := .arr []
          errorMsg := some ("Error fetching sensor data: " ++ toString r.status ++ " - " ++ r.text)
          apiRequestsDelta := 0 }

/-! The tabular normalizer: `pd.DataFrame(sensor_data)` plus the
timestamp handling of `main` (`src/streamlit_app.py` lines 345-358). -/

/-- A reading record, and equally a DataFrame row: an association list
from column name to value. -/
abbrev Row := List (String × PyVal)

/-- Keys bound by a record. -/
def rowKeys (r : Row) : List String := r.map Prod.fst

/-- First-occurrence-order deduplication, accumulating the names already
seen (pandas column order for a list of dicts). -/
def dedupFirstAux (seen : List String) : List String → List String
  | [] => []
  | c :: cs => if c ∈ seen then dedupFirstAux seen cs else c :: dedupFirstAux (c :: seen) cs

/-- The column set of `pd.DataFrame(records)`: the union of the record
keys in first-seen order. -/
def dfColumns (records : List Row) : List String :=
  dedupFirstAux [] (records.map rowKeys).flatten

/-- The value a record contributes to a column: the bound value when
present, `NaN` where pandas fills a missing field. -/
def cellValue (r : Row) (c : String) : PyVal := (alookup c r).getD .pNaN

/-- A value pandas counts as numeric when inferring a column dtype. -/
def isNumericVal : PyVal → Bool
  | .pInt _ => true
  | .pNum _ _ => true
  | .pNaN => true
  | _ => false

/-- Pandas dtype inference for one column of `pd.DataFrame(records)`:
the column is numeric when some record binds it to a number and every
record that binds it binds a number or `None` (a missing-value marker);
a string or other object anywhere keeps the column at object dtype. -/
def numericColumn (records : List Row) (c : String) : Bool :=
  let vals := records.filterMap (fun r => alookup c r)
  vals.any isNumericVal && vals.all (fun v => isNumericVal v || decide (v = .pNone))

/-- One cell of the constructed frame: a missing field is filled with
`NaN`; an explicit `None` is coerced to `NaN` in a numeric column and
preserved verbatim in an object column; everything else is kept. -/
def coerceCell (numeric : Bool) : Option PyVal → PyVal
  | none => .pNaN
  | some v => if numeric ∧ v = .pNone then .pNaN else v

/-- A DataFrame: ordered columns and rows, each row binding every
column. -/
structure DF where
  cols : List String
  rows : List Row

/-- `pd.DataFrame(records)` for a list of JSON-object records, with
pandas' per-column dtype inference applied to `None` values. -/
def mkDF (records : List Row) : DF :=
  let cs := dfColumns records
  ⟨cs, records.map (fun r =>
    cs.map (fun c => (c, coerceCell (numericColumn records c) (alookup c r))))⟩

/-- The values of one column, top to bottom. -/
def columnValues (df : DF) (c : String) : List PyVal :=
  df.rows.map (fun r => cellValue r c)

/-- Column assignment `df[c] = vals` (replace when the column exists,
append it otherwise). -/
def setColumn (df : DF) (c : String) (vals : List PyVal) : DF :=
  if c ∈ df.cols then
    ⟨df.cols,
     (df.rows.zip vals).map (fun rv => rv.1.map (fun kv => if kv.1 = c then (c, rv.2) else kv))⟩
  else
    ⟨df.cols ++ [c], (df.rows.zip vals).map (fun rv => rv.1 ++ [(c, rv.2)])⟩

/-- The timestamp step of `main` (lines 348-355): parse an existing
`timestamp` column; else parse a `time` column into `timestamp`; else
synthesize `pd.date_range(start=from_date, periods=len(df), freq="min")`
— one timestamp per row, starting at the from date and advancing one
minute per row.  `parseDT` stands for `pd.to_datetime`; times are
minute counts, `fromDate` the minute count of the query's from date. -/
def addTimestamps (parseDT : PyVal → PyVal) (df : DF) (fromDate : Int) : DF :=
  if "timestamp" ∈ df.cols then
    setColumn df "timestamp" ((columnValues df "timestamp").map parseDT)
  else if "time" ∈ df.cols then
    setColumn df "timestamp" ((columnValues df "time").map parseDT)
  else
    setColumn df "timestamp"
      ((List.range df.rows.length).map (fun i : Nat => .pTime (fromDate + (i : Int))))

/-- `df.iloc[-1]`, the latest row (the empty row only stands in for the
never-taken empty-frame case, which `main` guards with `df.empty`). -/
def ilocLast (df : DF) : Row := df.rows.getLast?.getD []

/-- `series.get(key, default)` on a row. -/
def seriesGet (r : Row) (k : String) (dflt : PyVal) : PyVal := (alookup k r).getD dflt

/-- One metric card of `main` (lines 360-370):
`format_metric(latest_data.get(field, 'N/A'))`. -/
def metricCard (df : DF) (field : String) : String :=
  format_metric (seriesGet (ilocLast df) field (.pStr "N/A"))

/-! The AI-analysis prompt construction of `analyze_data_deepseek`
(`src/streamlit_app.py` lines 127-180).  The source file's degree sign is
mojibake (the two characters `¬∞`); the embedding reproduces it
verbatim. -/

/-- Drop the trailing zeros of a digit run. -/
def stripTrailingZeros (l : List Char) : List Char :=
  (l.reverse.dropWhile (· = '0')).reverse

/-- Left-pad a digit run with zeros up to width `e`. -/
def padZerosTo (e : Nat) (l : List Char) : List Char :=
  List.replicate (e - l.length) '0' ++ l

/-- Python `str` of the float `m / 10^e`: integer part, then the
fractional digits with trailing zeros stripped, keeping at least one
digit (so integral floats print a trailing `.0`, as Python does). -/
def pyRenderFloat (m : Int) (e : Nat) : String :=
  let sign := if m < 0 then "-" else ""
  let p := 10 ^ e
  let fracs := stripTrailingZeros (padZerosTo e (Nat.toDigits 10 (m.natAbs % p)))
  sign ++ toString (m.natAbs / p) ++ "." ++ (if fracs = [] then "0" else ⟨fracs⟩)

/-- Python `str(value)` as interpolated by an f-string.  A timestamp is
rendered abstractly; no claim interpolates one. -/
def pyStr : PyVal → String
  | .pNone => "None"
  | .pNaN => "nan"
  | .pInt n => toString n
  | .pNum m e => pyRenderFloat m e
  | .pStr s => s
  | .pTime m => "Timestamp(" ++ toString m ++ ")"

/-- Python `str.capitalize`: first character upper-cased, the rest
lower-cased. -/
def pyCapitalize (s : String) : String :=
  match s.data with
  | [] => ""
  | c :: cs => ⟨c.toUpper :: cs.map Char.toLower⟩

/-- The two weather fields the analyzer reads from the weather JSON:
`main.temp` and `weather[0].description`.  A `none` stands for a falsy
`get_weather_forecast` result. -/
structure Weather where
  temp : PyVal
  description : String

/-- The `weather_info` fragment (lines 130-139): a fixed no-data marker
on failure, else the temperature and description lines. -/
def weatherInfo : Option Weather → String
  | none => "No weather data available."
  | some w =>
      ("- Current Temperature: " ++ pyStr w.temp ++ "¬∞C\n") ++
      ("- Weather Description: " ++ pyCapitalize w.description ++ "\n")

/-- The Bahasa Malaysia prompt template (lines 150-160). -/
def promptBM (sensor : Row) (wInfo location : String) : String :=
  "Analisis data persekitaran dan cuaca berikut untuk mengenal pasti sebarang masalah yang mungkin:\n" ++
  ("- EC (Kekonduksian Elektrik): " ++ pyStr (seriesGet sensor "EC" (.pStr "N/A")) ++ " mS/cm\n") ++
  ("- pH: " ++ pyStr (seriesGet sensor "pH" (.pStr "N/A")) ++ "\n") ++
  ("- Suhu Air: " ++ pyStr (seriesGet sensor "waterTemp" (.pStr "N/A")) ++ " ¬∞C\n") ++
  ("- Suhu Udara: " ++ pyStr (seriesGet sensor "airTemp" (.pStr "N/A")) ++ " ¬∞C\n") ++
  ("- Kelembapan Udara: " ++ pyStr (seriesGet sensor "airHum" (.pStr "N/A")) ++ " %\n") ++
  (wInfo ++ "\n") ++
  ("Lokasi ladang: " ++ location ++ "\n") ++
  "Berikan cadangan atau tindakan pembaikan berdasarkan data ini. Jawab dalam Bahasa Malaysia."

/-- The English prompt template (lines 162-172). -/
def promptEN (sensor : Row) (wInfo location : String) : String :=
  "Analyze the following environmental and weather data to identify any potential problems:\n" ++
  ("- EC (Electrical Conductivity): " ++ pyStr (seriesGet sensor "EC" (.pStr "N/A")) ++ " mS/cm\n") ++
  ("- pH: " ++ pyStr (seriesGet sensor "pH" (.pStr "N/A")) ++ "\n") ++
  ("- Water Temperature: " ++ pyStr (seriesGet sensor "waterTemp" (.pStr "N/A")) ++ " ¬∞C\n") ++
  ("- Air Temperature: " ++ pyStr (seriesGet sensor "airTemp" (.pStr "N/A")) ++ " ¬∞C\n") ++
  ("- Air Humidity: " ++ pyStr (seriesGet sensor "airHum" (.pStr "N/A")) ++ " %\n") ++
  (wInfo ++ "\n") ++
  ("Farm Location: " ++ location ++ "\n") ++
  "Provide recommendations or corrective actions based on this data."

/-- The prompt dispatch on the `language` argument (line 149). -/
def buildPrompt (language : String) (sensor : Row) (wInfo location : String) : String :=
  if language = "Bahasa Malaysia" then promptBM sensor wInfo location
  else promptEN sensor wInfo location

/-- The user-role prompt the analyzer composes: weather fragment first
(weather fetched, falling back to the no-data marker), then the
language-selected template. -/
def analyzeUserPrompt (sensor : Row) (location language : String)
    (weather : Option Weather) : String :=
  buildPrompt language sensor (weatherInfo weather) location

/-- One chat message of the completion payload. -/
structure ChatMessage where
  role : String
  content : String
  deriving DecidableEq, Repr

/-- The chat-completion payload (lines 174-180). -/
structure ChatRequest where
  model : String
  messages : List ChatMessage
  deriving DecidableEq, Repr

/-- The payload `analyze_data_deepseek` posts: a fixed model identifier,
the fixed system framing, and the composed user prompt.  The function is
total in the weather argument: a failed weather lookup only changes the
`weather_info` fragment and the request is still sent. -/
def analyzeRequest (sensor : Row) (location language : String)
    (weather : Option Weather) : ChatRequest :=
  { model := "deepseek/deepseek-r1-distill-llama-70b:free"
    messages :=
      [⟨"system", "You are an expert in environmental monitoring and agriculture."⟩,
       ⟨"user", analyzeUserPrompt sensor location language weather⟩] }

/-- The reading of the spec's end-to-end scenario:
`{"EC":1.2,"pH":6.5,"airTemp":29.1,"airHum":70,"waterTemp":24.0}`. -/
def scenarioReading : Row :=
  [("EC", .pNum 12 1), ("pH", .pNum 65 1), ("airTemp", .pNum 291 1),
   ("airHum", .pInt 70), ("waterTemp", .pNum 240 1)]

/-- A device profile as assembled by the Save Profile handler
(`src/streamlit_app.py` lines 297-304). -/
structure Profile where
  deviceID : String
  size_farm : String
  type_of_plant : String
  owner_name : String
  exact_location : String
  telephone_number : String
  deriving DecidableEq, Repr

/-- The session-scoped state initialised at `src/streamlit_app.py`
lines 19-32. -/
structure SessionState where
  logged_in : Bool
  device_id : String
  nidopro_api_key : String
  api_requests : Nat
  selected_language : String
  profile_updated : Bool
  device_profiles : List (String × Profile)
  deriving DecidableEq, Repr

/-- The initial values given to each session-state key. -/
def initialSessionState : SessionState :=
  { logged_in := false
    device_id := ""
    nidopro_api_key := ""
    api_requests := 0
    selected_language := "English"
    profile_updated := false
    device_profiles := [] }

/-- URL query parameters, cleared wholesale by the logout handler. -/
structure QueryParams where
  pairs : List (String × String)
  deriving DecidableEq, Repr

/-- The logout handler (`src/streamlit_app.py` lines 252-258): it resets
the login flag, the device id and the API key, and clears the query
parameters; it touches nothing else. -/
def logout (s : SessionState) (_q : QueryParams) : SessionState × QueryParams :=
  ({ s with logged_in := false, device_id := "", nidopro_api_key := "" }, ⟨[]⟩)

/-! TTL memoization.  `get_sensor_data` is wrapped in
`@st.cache_data(ttl=300)` at `src/streamlit_app.py` line 86. -/

/-- A memo table: one entry per argument tuple, holding the cached value
and the time at which it was stored. -/
structure TTLCache (α β : Type) where
  entries : List (α × β × Nat)

/-- Modelled from the spec: the `st.cache_data(ttl=...)` decorator itself
is streamlit library code, absent from `src/`; per the spec it memoizes
results keyed by the full argument tuple with a fixed expiry, returning
the prior result without recomputation while the entry's age is below the
ttl, and recomputing (one underlying call) otherwise.  The third result
component counts the underlying (network) calls this invocation made. -/
def cachedCall {α β : Type} [DecidableEq α] (ttl : Nat) (net : α → β)
    (cache : TTLCache α β) (now : Nat) (args : α) : β × TTLCache α β × Nat :=
  match cache.entries.find? (fun e => decide (e.1 = args)) with
  | some (_, v, stored) =>
      if now - stored < ttl then (v, cache, 0)
      else
        let v₂ := net args
        (v₂, ⟨(args, v₂, now) :: cache.entries.filter (fun e => decide (e.1 ≠ args))⟩, 1)
  | none =>
      let v₂ := net args
      (v₂, ⟨(args, v₂, now) :: cache.entries⟩, 1)

/-- The argument tuple of `get_sensor_data`: device id, API key, from
date, to date, optional limit (dates abstracted to day numbers). -/
abbrev FetchArgs := String × String × Int × Int × Option Nat

/-- The cached sensor fetch: `get_sensor_data` memoized with a
300-second ttl, over an abstract network function from argument tuples
to reading lists. -/
def cachedGetSensorData (net : FetchArgs → JVal) :
    TTLCache FetchArgs JVal → Nat → FetchArgs → JVal × TTLCache FetchArgs JVal × Nat :=
  cachedCall 300 net

/-- Modelled from the spec: the topic-constrained chat capability
(spec section 4.4) has no implementation in `src/streamlit_app.py`; the
spec fixes the enumerated topic set. -/
def validChatTopics : List String :=
  ["irrigation", "soil_health", "pest_control", "crop_management", "general_agriculture"]

/-- Modelled from the spec: the literal validation message returned for
an unrecognized topic (the spec fixes only that it is one literal
string). -/
def chatValidationMessage : String :=
  "Invalid topic. Please choose one of: irrigation, soil_health, pest_control, crop_management, general_agriculture."

/-- Modelled from the spec: the topic-constrained chat. A question with a
recognized topic is sent to the model (one network call, counter
incremented on success); an unrecognized topic is rejected with the
literal validation message before any network call, leaving the counter
unchanged.  Results: reply text, new counter, network calls made. -/
def askChatTopic (net : String → String → String) (question topic : String)
    (counter : Nat) : String × Nat × Nat :=
  if topic ∈ validChatTopics then (net question topic, counter + 1, 1)
  else (chatValidationMessage, counter, 0)

/-! Substring containment, used to state which text a user-facing message
or a composed prompt embeds. -/

/-- The string `sub` occurs contiguously inside `s`. -/
def Contains (s sub : String) : Prop := sub.data <:+: s.data

instance (s sub : String) : Decidable (Contains s sub) := by
  unfold Contains; infer_instance

theorem contains_refl (s : String) : Contains s s := List.infix_refl _

theorem contains_append_left {s sub : String} (t : String) (h : Contains s sub) :
    Contains (s ++ t) sub := by
  obtain ⟨a, b, hab⟩ := h
  exact ⟨a, b ++ t.data, by simp [← hab]⟩

theorem contains_append_right {t sub : String} (s : String) (h : Contains t sub) :
    Contains (s ++ t) sub := by
  obtain ⟨a, b, hab⟩ := h
  exact ⟨s.data ++ a, b, by simp [← hab]⟩

theorem contains_trans {s t u : String} (h₁ : Contains s t) (h₂ : Contains t u) :
    Contains s u := List.IsInfix.trans h₂ h₁

/-! Helper lemmas about lookups and DataFrame construction. -/

theorem alookup_eq_none {β : Type} {k : String} {r : List (String × β)} :
    alookup k r = none ↔ k ∉ r.map Prod.fst := by
  induction r with
  | nil => simp [alookup]
  | cons kv rest ih =>
      obtain ⟨k₂, v⟩ := kv
      by_cases h : k₂ = k
      · subst h; simp [alookup]
      · simp [alookup, h, ih, Ne.symm h]

theorem mem_dedupFirstAux {x : String} {seen l : List String}
    (h : x ∈ dedupFirstAux seen l) : x ∈ l := by
  induction l generalizing seen with
  | nil => simp [dedupFirstAux] at h
  | cons c cs ih =>
      by_cases hc : c ∈ seen
      · simp only [dedupFirstAux, if_pos hc] at h
        exact List.mem_cons_of_mem _ (ih h)
      · simp only [dedupFirstAux, if_neg hc, List.mem_cons] at h
        rcases h with h | h
        · exact h ▸ List.mem_cons_self _ _
        · exact List.mem_cons_of_mem _ (ih h)

theorem mem_dedupFirstAux_of {x : String} {seen l : List String}
    (hl : x ∈ l) (hs : x ∉ seen) : x ∈ dedupFirstAux seen l := by
  induction l generalizing seen with
  | nil => cases hl
  | cons c cs ih =>
      by_cases hc : c ∈ seen
      · have hx : x ∈ cs := by
          rcases List.mem_cons.mp hl with rfl | h
          · exact absurd hc hs
          · exact h
        simpa [dedupFirstAux, if_pos hc] using ih hx hs
      · rcases List.mem_cons.mp hl with rfl | h
        · simp [dedupFirstAux, if_neg hc]
        · by_cases hxc : x = c
          · subst hxc; simp [dedupFirstAux, if_neg hc]
          · have : x ∉ c :: seen := by simp [hxc, hs]
            simp only [dedupFirstAux, if_neg hc, List.mem_cons]
            exact Or.inr (ih h this)

theorem mem_dfColumns {c : String} {records : List Row} :
    c ∈ dfColumns records ↔ ∃ r ∈ records, c ∈ rowKeys r := by
  constructor
  · intro h
    have := mem_dedupFirstAux h
    simpa [List.mem_flatten] using this
  · rintro ⟨r, hr, hk⟩
    refine mem_dedupFirstAux_of ?_ (by simp)
    simp only [List.mem_flatten]
    exact ⟨rowKeys r, List.mem_map_of_mem _ hr, hk⟩

theorem alookup_append_none {β : Type} {k : String} {l₁ l₂ : List (String × β)}
    (h : alookup k l₁ = none) : alookup k (l₁ ++ l₂) = alookup k l₂ := by
  induction l₁ with
  | nil => simp
  | cons kv rest ih =>
      obtain ⟨k₂, v⟩ := kv
      by_cases hk : k₂ = k
      · simp [alookup, hk] at h
      · simp only [alookup, if_neg hk, List.cons_append] at h ⊢
        exact ih h

theorem alookup_tabulate {g : String → PyVal} {cs : List String} {f : String} :
    alookup f (cs.map (fun c => (c, g c))) = if f ∈ cs then some (g f) else none := by
  induction cs with
  | nil => simp [alookup]
  | cons c cs ih =>
      by_cases hc : c = f
      · subst hc; simp [alookup]
      · simp [alookup, hc, ih, Ne.symm hc]

theorem mkDF_cols (records : List Row) : (mkDF records).cols = dfColumns records := rfl

theorem mkDF_rows_length (records : List Row) :
    (mkDF records).rows.length = records.length := by simp [mkDF]

theorem mkDF_rowKeys {records : List Row} :
    ∀ row ∈ (mkDF records).rows, rowKeys row = dfColumns records := by
  intro row hrow
  simp only [mkDF, List.mem_map] at hrow
  obtain ⟨r, _, rfl⟩ := hrow
  show List.map Prod.fst
    (List.map (fun c => (c, coerceCell (numericColumn records c) (alookup c r)))
      (dfColumns records)) = _
  rw [List.map_map]
  exact List.map_id _

theorem columnValues_setColumn_new {df : DF} {c : String} {vals : List PyVal}
    (hc : c ∉ df.cols) (hrows : ∀ r ∈ df.rows, alookup c r = none)
    (hlen : vals.length = df.rows.length) :
    columnValues (setColumn df c vals) c = vals := by
  simp only [setColumn, if_neg hc, columnValues, List.map_map]
  have heq : ∀ rv ∈ df.rows.zip vals,
      (cellValue (rv.1 ++ [(c, rv.2)]) c) = rv.2 := by
    rintro ⟨r, v⟩ hmem
    have hr : r ∈ df.rows := (List.of_mem_zip hmem).1
    simp [cellValue, alookup_append_none (hrows r hr), alookup]
  calc (df.rows.zip vals).map (fun rv => cellValue (rv.1 ++ [(c, rv.2)]) c)
      = (df.rows.zip vals).map Prod.snd := List.map_congr_left heq
    _ = vals := List.map_snd_zip _ _ (le_of_eq hlen)

/-- C1, counterexample.  The claim says a 401 response whose body lacks
`errors[0].detail` yields a generic fallback message.  The code instead
embeds the raw body in the message, so two detail-free 401 responses
yield two different messages: there is no generic fallback. -/
theorem C1_counterexample :
    (get_sensor_data (.ok ⟨401, "unauthorized", .ok (.obj [])⟩)).errorMsg ≠
      (get_sensor_data (.ok ⟨401, "forbidden", .ok (.obj [])⟩)).errorMsg := by
  decide

/-- C1 (amended): for every sensor-API response with a non-200 status
(hence in particular 400/401/404), the fetch returns an empty reading
sequence without raising and emits the single message
`Error fetching sensor data: status - body`, which embeds the raw body
text verbatim (and therefore any `errors[0].detail` text as part of that
body); there is no detail extraction and no generic fallback. -/
theorem C1_amended_error_surface (r : HTTPResponse) (h : r.status ≠ 200) :
    (get_sensor_data (.ok r)).data = .arr [] ∧
    (get_sensor_data (.ok r)).errorMsg =
      some ("Error fetching sensor data: " ++ toString r.status ++ " - " ++ r.text) ∧
    Contains ("Error fetching sensor data: " ++ toString r.status ++ " - " ++ r.text) r.text := by
  refine ⟨?_, ?_, ?_⟩
  · simp [get_sensor_data, h]
  · simp [get_sensor_data, h]
  · exact contains_append_right _ (contains_refl _)

/-- C1, witness: the amended statement at a concrete 401 response. -/
theorem C1_amended_error_surface_witness :
    (get_sensor_data (.ok ⟨401, "unauthorized", .ok (.obj [])⟩)).data = .arr [] ∧
    (get_sensor_data (.ok ⟨401, "unauthorized", .ok (.obj [])⟩)).errorMsg =
      some ("Error fetching sensor data: " ++ toString 401 ++ " - " ++ "unauthorized") ∧
    Contains ("Error fetching sensor data: " ++ toString 401 ++ " - " ++ "unauthorized")
      "unauthorized" :=
  C1_amended_error_surface ⟨401, "unauthorized", .ok (.obj [])⟩ (by decide)

/-- C5: a 200 response whose JSON object body lacks the `data` field
yields an empty sequence; every non-200 status yields an empty sequence;
every transport exception yields an empty sequence — so callers can
render "no data" instead of crashing. -/
theorem C5_empty_on_all_error_paths :
    (∀ (body : String) (kvs : List (String × JVal)), alookup "data" kvs = none →
        (get_sensor_data (.ok ⟨200, body, .ok (.obj kvs)⟩)).data = .arr []) ∧
    (∀ r : HTTPResponse, r.status ≠ 200 → (get_sensor_data (.ok r)).data = .arr []) ∧
    (∀ msg : String, (get_sensor_data (.exn msg)).data = .arr []) := by
  refine ⟨?_, ?_, ?_⟩
  · intro body kvs h
    simp [get_sensor_data, jsonGetData, dictGet, h]
  · intro r h
    simp [get_sensor_data, h]
  · intro msg
    simp [get_sensor_data]

/-- C5, witness: the three error paths at concrete inputs. -/
theorem C5_empty_on_all_error_paths_witness :
    (get_sensor_data (.ok ⟨200, "{}", .ok (.obj [])⟩)).data = .arr [] ∧
    (get_sensor_data (.ok ⟨404, "not found", .ok (.obj [])⟩)).data = .arr [] ∧
    (get_sensor_data (.exn "connection timed out")).data = .arr [] :=
  ⟨C5_empty_on_all_error_paths.1 "{}" [] rfl,
   C5_empty_on_all_error_paths.2.1 ⟨404, "not found", .ok (.obj [])⟩ (by decide),
   C5_empty_on_all_error_paths.2.2 "connection timed out"⟩

/-- C8, counterexample.  The claim says logout wipes the whole session
state, including the language, the request counter and the profile
mapping.  At this concrete state the handler leaves the counter at 5,
the language at "Bahasa Malaysia" and the profile mapping nonempty. -/
theorem C8_counterexample :
    ¬ (let s₂ := (logout { initialSessionState with
          logged_in := true
          device_id := "dev1"
          nidopro_api_key := "k"
          api_requests := 5
          selected_language := "Bahasa Malaysia"
          device_profiles := [("dev1", ⟨"dev1", "2", "chili", "A", "Penang", "012"⟩)] }
        ⟨[("logged_in", "True")]⟩).1
       s₂.logged_in = false ∧ s₂.device_id = "" ∧ s₂.nidopro_api_key = "" ∧
       s₂.selected_language = "English" ∧ s₂.api_requests = 0 ∧
       s₂.device_profiles = []) := by
  decide

/-- C8 (amended): logout resets the login flag, the device id and the
sensor API key and clears the query parameters, and it preserves the
request counter, the selected language, the profile-updated flag and the
device-id-to-profile mapping. -/
theorem C8_amended_logout_frame (s : SessionState) (q : QueryParams) :
    (logout s q).1.logged_in = false ∧
    (logout s q).1.device_id = "" ∧
    (logout s q).1.nidopro_api_key = "" ∧
    (logout s q).2.pairs = [] ∧
    (logout s q).1.api_requests = s.api_requests ∧
    (logout s q).1.selected_language = s.selected_language ∧
    (logout s q).1.profile_updated = s.profile_updated ∧
    (logout s q).1.device_profiles = s.device_profiles := by
  simp [logout]

/-- C7: starting from an empty cache, a fetch at time t₁ performs one
network call; a second fetch with the identical argument tuple at time t₂
within 300 seconds performs none and returns the memoized result; a third
fetch at time t₃ at or past the 300-second expiry performs a new network
call. -/
theorem C7_ttl_cache_hits (net : FetchArgs → JVal) (args : FetchArgs)
    (t₁ t₂ t₃ : Nat) (_h₁ : t₁ ≤ t₂) (h₂ : t₂ - t₁ < 300) (h₃ : 300 ≤ t₃ - t₁) :
    let r₁ := cachedGetSensorData net ⟨[]⟩ t₁ args
    let r₂ := cachedGetSensorData net r₁.2.1 t₂ args
    let r₃ := cachedGetSensorData net r₂.2.1 t₃ args
    r₁.2.2 = 1 ∧ r₂.2.2 = 0 ∧ r₂.1 = r₁.1 ∧ r₃.2.2 = 1 := by
  simp only [cachedGetSensorData, cachedCall, List.find?]
  simp [h₂, Nat.not_lt.mpr h₃]

/-- C7, witness: the cache scenario at concrete times 0, 100 and 300. -/
theorem C7_ttl_cache_hits_witness :
    let r₁ := cachedGetSensorData (fun _ => .arr []) ⟨[]⟩ 0 ("dev", "key", 0, 7, some 1000)
    let r₂ := cachedGetSensorData (fun _ => .arr []) r₁.2.1 100 ("dev", "key", 0, 7, some 1000)
    let r₃ := cachedGetSensorData (fun _ => .arr []) r₂.2.1 300 ("dev", "key", 0, 7, some 1000)
    r₁.2.2 = 1 ∧ r₂.2.2 = 0 ∧ r₂.1 = r₁.1 ∧ r₃.2.2 = 1 :=
  C7_ttl_cache_hits (fun _ => .arr []) ("dev", "key", 0, 7, some 1000) 0 100 300
    (by decide) (by decide) (by decide)

/-- C9: a question whose topic is outside the fixed set is rejected with
the literal validation message, makes no network call, and leaves the
request counter unchanged. -/
theorem C9_invalid_topic_rejected (net : String → String → String)
    (question topic : String) (counter : Nat) (h : topic ∉ validChatTopics) :
    askChatTopic net question topic counter = (chatValidationMessage, counter, 0) := by
  simp [askChatTopic, h]

/-- C9, witness: the rejection at the concrete topic "cooking". -/
theorem C9_invalid_topic_rejected_witness :
    askChatTopic (fun _ _ => "reply") "How much water does chili need?" "cooking" 3 =
      (chatValidationMessage, 3, 0) :=
  C9_invalid_topic_rejected (fun _ _ => "reply") "How much water does chili need?" "cooking" 3
    (by decide)

theorem mem_of_getLast_eq {α : Type} {l : List α} {a : α} (h : l.getLast? = some a) :
    a ∈ l := by
  obtain ⟨hne, heq⟩ := List.mem_getLast?_eq_getLast (show a ∈ l.getLast? by simp [h])
  rw [heq]
  exact List.getLast_mem hne

theorem ilocLast_mkDF {records : List Row} {r : Row} (hlast : records.getLast? = some r) :
    ilocLast (mkDF records) =
      (dfColumns records).map
        (fun c => (c, coerceCell (numericColumn records c) (alookup c r))) := by
  unfold ilocLast mkDF
  rw [List.getLast?_map, hlast]
  rfl

theorem ilocLast_mem {df : DF} (h : df.rows ≠ []) : ilocLast df ∈ df.rows := by
  unfold ilocLast
  rw [List.getLast?_eq_getLast _ h]
  exact List.getLast_mem h

theorem metricCard_mkDF_last {records : List Row} {r : Row} {f : String} {v : PyVal}
    (hlast : records.getLast? = some r) (hlookup : alookup f r = some v) :
    metricCard (mkDF records) f =
      format_metric (coerceCell (numericColumn records f) (some v)) := by
  have hrow := ilocLast_mkDF hlast
  have hfC : f ∈ dfColumns records := by
    rw [mem_dfColumns]
    refine ⟨r, mem_of_getLast_eq hlast, ?_⟩
    by_contra hk
    have hnone : alookup f r = none := alookup_eq_none.mpr hk
    rw [hnone] at hlookup
    cases hlookup
  unfold metricCard seriesGet
  rw [hrow, alookup_tabulate, if_pos hfC, Option.getD_some, hlookup]

theorem numericColumn_all_none {records : List Row} {f : String}
    (hall : ∀ r₂ ∈ records, ∀ v, alookup f r₂ = some v → v = .pNone) :
    numericColumn records f = false := by
  have hany : (records.filterMap (fun r => alookup f r)).any isNumericVal = false := by
    rw [List.any_eq_false]
    intro v hv
    rw [List.mem_filterMap] at hv
    obtain ⟨r₂, hr₂, heq⟩ := hv
    have hveq := hall r₂ hr₂ v heq
    subst hveq
    simp [isNumericVal]
  simp [numericColumn, hany]

/-- C2: when no record carries a `timestamp` field and none carries a
`time` field, the normalizer synthesizes exactly one timestamp per record
(the count equals the record count), the timestamps advance strictly by
one minute in array order, and the first one equals the query's from
date. -/
theorem C2_synthesized_timestamps (parseDT : PyVal → PyVal) (records : List Row)
    (fromDate : Int)
    (h : ∀ r ∈ records, alookup "timestamp" r = none ∧ alookup "time" r = none) :
    let ts := columnValues (addTimestamps parseDT (mkDF records) fromDate) "timestamp"
    ts.length = records.length ∧
    (∀ i, i < records.length → ts.getD i .pNone = .pTime (fromDate + i)) ∧
    (0 < records.length → ts.getD 0 .pNone = .pTime fromDate) ∧
    (∀ i, i + 1 < records.length →
      ∃ t, ts.getD i .pNone = .pTime t ∧ ts.getD (i + 1) .pNone = .pTime (t + 1)) := by
  intro ts
  have hnotsC : "timestamp" ∉ dfColumns records := by
    rw [mem_dfColumns]
    rintro ⟨r, hr, hk⟩
    exact (alookup_eq_none.mp (h r hr).1) hk
  have hnotimeC : "time" ∉ dfColumns records := by
    rw [mem_dfColumns]
    rintro ⟨r, hr, hk⟩
    exact (alookup_eq_none.mp (h r hr).2) hk
  have hrows : ∀ row ∈ (mkDF records).rows, alookup "timestamp" row = none := by
    intro row hrow
    rw [alookup_eq_none]
    show "timestamp" ∉ rowKeys row
    rw [mkDF_rowKeys row hrow]
    exact hnotsC
  have hmain : ts =
      (List.range records.length).map (fun i : ℕ => PyVal.pTime (fromDate + (i : ℤ))) := by
    show columnValues (addTimestamps parseDT (mkDF records) fromDate) "timestamp" = _
    rw [addTimestamps, mkDF_cols records, if_neg hnotsC, if_neg hnotimeC,
      mkDF_rows_length records]
    apply columnValues_setColumn_new hnotsC hrows
    simp [mkDF_rows_length records]
  have hget : ∀ i, i < records.length →
      ts.getD i PyVal.pNone = PyVal.pTime (fromDate + i) := by
    intro i hi
    rw [hmain, List.getD_eq_getElem?_getD, List.getElem?_map, List.getElem?_range hi]
    rfl
  refine ⟨?_, hget, ?_, ?_⟩
  · rw [hmain]; simp
  · intro hpos
    have := hget 0 hpos
    simpa using this
  · intro i hi
    refine ⟨fromDate + i, hget i (Nat.lt_of_succ_lt hi), ?_⟩
    have := hget (i + 1) hi
    rw [this]
    push_cast
    ring_nf

/-- C2, witness: two records with no time fields, from date at minute
100. -/
theorem C2_synthesized_timestamps_witness :
    let ts := columnValues
      (addTimestamps id (mkDF [[("EC", .pNum 10 1)], [("EC", .pNum 20 1)]]) 100) "timestamp"
    ts.length = 2 ∧
    (∀ i, i < 2 → ts.getD i .pNone = .pTime (100 + i)) ∧
    (0 < 2 → ts.getD 0 .pNone = .pTime 100) ∧
    (∀ i, i + 1 < 2 →
      ∃ t, ts.getD i .pNone = .pTime t ∧ ts.getD (i + 1) .pNone = .pTime (t + 1)) :=
  C2_synthesized_timestamps id [[("EC", .pNum 10 1)], [("EC", .pNum 20 1)]] 100 (by decide)

/-- C4, counterexample.  The claim says a record missing a metric field
is always rendered "N/A" and never "nan".  When the last record lacks
`EC` but an earlier record has it, pandas fills the hole with `NaN`,
`float(nan)` succeeds, and the card renders the literal "nan". -/
theorem C4_counterexample :
    metricCard (mkDF [[("EC", .pNum 10 1)], [("pH", .pNum 70 1)]]) "EC" = "nan" ∧
    "nan" ≠ "N/A" := by
  constructor
  · decide
  · decide

/-- C4 (amended): the card renders "N/A" (and never raises) when the
metric field is absent from every record (the column does not exist and
the `'N/A'` default is formatted), when the latest record binds it to a
non-`None` value on which `float` raises (a non-numeric string), and
when it binds it to `None` in a column holding only `None` values (the
column stays object dtype, so the `None` survives and `float(None)`
raises); but a field missing from the latest record while present in an
earlier one, or bound to `None` in a column pandas infers numeric,
arrives as `NaN` and renders the literal "nan". -/
theorem C4_amended_na_rendering (records : List Row) (f : String) :
    (records ≠ [] → (∀ r ∈ records, alookup f r = none) →
      metricCard (mkDF records) f = "N/A") ∧
    (∀ r v, records.getLast? = some r → alookup f r = some v →
      pyFloat v = none → v ≠ .pNone →
      metricCard (mkDF records) f = "N/A") ∧
    (∀ r, records.getLast? = some r → alookup f r = some .pNone →
      (∀ r₂ ∈ records, ∀ v, alookup f r₂ = some v → v = .pNone) →
      metricCard (mkDF records) f = "N/A") ∧
    (∀ r, records.getLast? = some r → alookup f r = some .pNone →
      numericColumn records f = true →
      metricCard (mkDF records) f = "nan") := by
  refine ⟨?_, ?_, ?_, ?_⟩
  · intro hne hall
    have hf : f ∉ dfColumns records := by
      rw [mem_dfColumns]
      rintro ⟨r, hr, hk⟩
      exact (alookup_eq_none.mp (hall r hr)) hk
    have hrowsne : (mkDF records).rows ≠ [] := by
      simp only [mkDF, ne_eq, List.map_eq_nil_iff]
      exact hne
    have hmem := ilocLast_mem hrowsne
    have hkeys := mkDF_rowKeys _ hmem
    have hlook : alookup f (ilocLast (mkDF records)) = none := by
      rw [alookup_eq_none]
      show f ∉ rowKeys (ilocLast (mkDF records))
      rw [hkeys]
      exact hf
    unfold metricCard seriesGet
    rw [hlook]
    decide
  · intro r v hlast hlookup hfail hvn
    rw [metricCard_mkDF_last hlast hlookup]
    have hkeep : coerceCell (numericColumn records f) (some v) = v := by
      simp [coerceCell, hvn]
    rw [hkeep]
    unfold format_metric
    rw [hfail]
  · intro r hlast hlookup hall
    rw [metricCard_mkDF_last hlast hlookup]
    rw [numericColumn_all_none hall]
    decide
  · intro r hlast hlookup hnum
    rw [metricCard_mkDF_last hlast hlookup, hnum]
    decide

/-- C4, witness: a field absent from the single record, a latest value
that is a non-numeric string, an all-`None` column, and a `None` in a
numeric column, rendering "N/A", "N/A", "N/A" and "nan". -/
theorem C4_amended_na_rendering_witness :
    metricCard (mkDF [[("pH", .pNum 70 1)]]) "EC" = "N/A" ∧
    metricCard (mkDF [[("EC", .pStr "err"), ("pH", .pNum 70 1)]]) "EC" = "N/A" ∧
    metricCard (mkDF [[("EC", .pNone)]]) "EC" = "N/A" ∧
    metricCard (mkDF [[("EC", .pNum 12 1)], [("EC", .pNone)]]) "EC" = "nan" :=
  ⟨(C4_amended_na_rendering [[("pH", .pNum 70 1)]] "EC").1 (by decide) (by decide),
   (C4_amended_na_rendering [[("EC", .pStr "err"), ("pH", .pNum 70 1)]] "EC").2.1
     [("EC", .pStr "err"), ("pH", .pNum 70 1)] (.pStr "err") rfl (by decide)
     (by decide) (by decide),
   (C4_amended_na_rendering [[("EC", .pNone)]] "EC").2.2.1
     [("EC", .pNone)] rfl (by decide) (by decide),
   (C4_amended_na_rendering [[("EC", .pNum 12 1)], [("EC", .pNone)]] "EC").2.2.2
     [("EC", .pNone)] rfl (by decide) (by decide)⟩

set_option maxRecDepth 40000 in
/-- C6: for every reading, language and weather input the prompt is the
fixed per-language template embedding the five metric lines (each
rendering its metric or the `N/A` default); a missing field renders as
the literal "N/A"; the English prompt for the scenario reading contains
"EC (Electrical Conductivity): 1.2 mS/cm"; and with a weather snapshot
the prompt contains the temperature line, the description line and the
farm-location line. -/
theorem C6_prompt_embedding :
    (∀ (sensor : Row) (location : String) (w : Option Weather),
      Contains (analyzeUserPrompt sensor location "English" w)
        ("- EC (Electrical Conductivity): " ++ pyStr (seriesGet sensor "EC" (.pStr "N/A")) ++ " mS/cm\n") ∧
      Contains (analyzeUserPrompt sensor location "English" w)
        ("- pH: " ++ pyStr (seriesGet sensor "pH" (.pStr "N/A")) ++ "\n") ∧
      Contains (analyzeUserPrompt sensor location "English" w)
        ("- Water Temperature: " ++ pyStr (seriesGet sensor "waterTemp" (.pStr "N/A")) ++ " ¬∞C\n") ∧
      Contains (analyzeUserPrompt sensor location "English" w)
        ("- Air Temperature: " ++ pyStr (seriesGet sensor "airTemp" (.pStr "N/A")) ++ " ¬∞C\n") ∧
      Contains (analyzeUserPrompt sensor location "English" w)
        ("- Air Humidity: " ++ pyStr (seriesGet sensor "airHum" (.pStr "N/A")) ++ " %\n")) ∧
    (∀ (sensor : Row) (location : String) (w : Option Weather),
      Contains (analyzeUserPrompt sensor location "Bahasa Malaysia" w)
        ("- EC (Kekonduksian Elektrik): " ++ pyStr (seriesGet sensor "EC" (.pStr "N/A")) ++ " mS/cm\n") ∧
      Contains (analyzeUserPrompt sensor location "Bahasa Malaysia" w)
        ("- pH: " ++ pyStr (seriesGet sensor "pH" (.pStr "N/A")) ++ "\n") ∧
      Contains (analyzeUserPrompt sensor location "Bahasa Malaysia" w)
        ("- Suhu Air: " ++ pyStr (seriesGet sensor "waterTemp" (.pStr "N/A")) ++ " ¬∞C\n") ∧
      Contains (analyzeUserPrompt sensor location "Bahasa Malaysia" w)
        ("- Suhu Udara: " ++ pyStr (seriesGet sensor "airTemp" (.pStr "N/A")) ++ " ¬∞C\n") ∧
      Contains (analyzeUserPrompt sensor location "Bahasa Malaysia" w)
        ("- Kelembapan Udara: " ++ pyStr (seriesGet sensor "airHum" (.pStr "N/A")) ++ " %\n")) ∧
    (∀ (sensor : Row) (f : String), alookup f sensor = none →
      pyStr (seriesGet sensor f (.pStr "N/A")) = "N/A") ∧
    Contains (analyzeUserPrompt scenarioReading "Penang" "English" none)
      "EC (Electrical Conductivity): 1.2 mS/cm" ∧
    (∀ (sensor : Row) (location language : String) (w : Weather),
      Contains (analyzeUserPrompt sensor location language (some w))
        ("- Current Temperature: " ++ pyStr w.temp ++ "¬∞C\n") ∧
      Contains (analyzeUserPrompt sensor location language (some w))
        ("- Weather Description: " ++ pyCapitalize w.description ++ "\n") ∧
      Contains (analyzeUserPrompt sensor location language (some w))
        ((if language = "Bahasa Malaysia" then "Lokasi ladang: " else "Farm Location: ") ++
          location ++ "\n")) := by
  refine ⟨?_, ?_, ?_, ?_, ?_⟩
  · intro sensor location w
    unfold analyzeUserPrompt buildPrompt
    rw [if_neg (by decide)]
    unfold promptEN
    refine ⟨?_, ?_, ?_, ?_, ?_⟩
    · exact contains_append_left _ (contains_append_left _ (contains_append_left _
        (contains_append_left _ (contains_append_left _ (contains_append_left _
        (contains_append_left _ (contains_append_right _ (contains_refl _))))))))
    · exact contains_append_left _ (contains_append_left _ (contains_append_left _
        (contains_append_left _ (contains_append_left _ (contains_append_left _
        (contains_append_right _ (contains_refl _)))))))
    · exact contains_append_left _ (contains_append_left _ (contains_append_left _
        (contains_append_left _ (contains_append_left _
        (contains_append_right _ (contains_refl _))))))
    · exact contains_append_left _ (contains_append_left _ (contains_append_left _
        (contains_append_left _ (contains_append_right _ (contains_refl _)))))
    · exact contains_append_left _ (contains_append_left _ (contains_append_left _
        (contains_append_right _ (contains_refl _))))
  · intro sensor location w
    unfold analyzeUserPrompt buildPrompt
    rw [if_pos rfl]
    unfold promptBM
    refine ⟨?_, ?_, ?_, ?_, ?_⟩
    · exact contains_append_left _ (contains_append_left _ (contains_append_left _
        (contains_append_left _ (contains_append_left _ (contains_append_left _
        (contains_append_left _ (contains_append_right _ (contains_refl _))))))))
    · exact contains_append_left _ (contains_append_left _ (contains_append_left _
        (contains_append_left _ (contains_append_left _ (contains_append_left _
        (contains_append_right _ (contains_refl _)))))))
    · exact contains_append_left _ (contains_append_left _ (contains_append_left _
        (contains_append_left _ (contains_append_left _
        (contains_append_right _ (contains_refl _))))))
    · exact contains_append_left _ (contains_append_left _ (contains_append_left _
        (contains_append_left _ (contains_append_right _ (contains_refl _)))))
    · exact contains_append_left _ (contains_append_left _ (contains_append_left _
        (contains_append_right _ (contains_refl _))))
  · intro sensor f h
    unfold seriesGet
    rw [h]
    rfl
  · decide
  · intro sensor location language w
    have hweather : ∀ sub : String,
        Contains (weatherInfo (some w) ++ "\n") sub →
        ∀ lang₂ : String, Contains (analyzeUserPrompt sensor location lang₂ (some w)) sub := by
      intro sub hsub lang₂
      unfold analyzeUserPrompt buildPrompt
      by_cases hl : lang₂ = "Bahasa Malaysia"
      · rw [if_pos hl]
        unfold promptBM
        exact contains_append_left _ (contains_append_left _
          (contains_append_right _ hsub))
      · rw [if_neg hl]
        unfold promptEN
        exact contains_append_left _ (contains_append_left _
          (contains_append_right _ hsub))
    refine ⟨?_, ?_, ?_⟩
    · refine hweather _ ?_ language
      unfold weatherInfo
      exact contains_append_left _ (contains_append_left _ (contains_refl _))
    · refine hweather _ ?_ language
      unfold weatherInfo
      exact contains_append_left _ (contains_append_right _ (contains_refl _))
    · unfold analyzeUserPrompt buildPrompt
      by_cases hl : language = "Bahasa Malaysia"
      · rw [if_pos hl, if_pos hl]
        unfold promptBM
        exact contains_append_left _ (contains_append_right _ (contains_refl _))
      · rw [if_neg hl, if_neg hl]
        unfold promptEN
        exact contains_append_left _ (contains_append_right _ (contains_refl _))

/-- C6, witness: the N/A substitution at a concrete empty reading. -/
theorem C6_prompt_embedding_witness :
    pyStr (seriesGet [] "EC" (.pStr "N/A")) = "N/A" :=
  C6_prompt_embedding.2.2.1 [] "EC" rfl

/-- C10: a failed weather lookup never aborts the analysis: the request
payload is still composed (and posted) with the weather section replaced
by the literal "No weather data available.", and the farm-location line
is embedded in the prompt whether or not weather data was obtained. -/
theorem C10_weather_failure_no_abort (sensor : Row) (location language : String) :
    (analyzeRequest sensor location language none).messages =
      [⟨"system", "You are an expert in environmental monitoring and agriculture."⟩,
       ⟨"user", analyzeUserPrompt sensor location language none⟩] ∧
    Contains (analyzeUserPrompt sensor location language none)
      "No weather data available." ∧
    (∀ w : Option Weather,
      Contains (analyzeUserPrompt sensor location language w)
        ((if language = "Bahasa Malaysia" then "Lokasi ladang: " else "Farm Location: ") ++
          location ++ "\n")) := by
  refine ⟨rfl, ?_, ?_⟩
  · unfold analyzeUserPrompt buildPrompt
    have hw : Contains (weatherInfo none ++ "\n") "No weather data available." := by
      unfold weatherInfo
      exact contains_append_left _ (contains_refl _)
    by_cases hl : language = "Bahasa Malaysia"
    · rw [if_pos hl]
      unfold promptBM
      exact contains_append_left _ (contains_append_left _ (contains_append_right _ hw))
    · rw [if_neg hl]
      unfold promptEN
      exact contains_append_left _ (contains_append_left _ (contains_append_right _ hw))
  · intro w
    unfold analyzeUserPrompt buildPrompt
    by_cases hl : language = "Bahasa Malaysia"
    · rw [if_pos hl, if_pos hl]
      unfold promptBM
      exact contains_append_left _ (contains_append_right _ (contains_refl _))
    · rw [if_neg hl, if_neg hl]
      unfold promptEN
      exact contains_append_left _ (contains_append_right _ (contains_refl _))

end Nido
